import Mathlib

/-!
Verification of the cognitive memory and reasoning subsystem of the
Atulya-Tantra-AGI repository.

The repository's visible source is the web front end; the subsystem itself is
reachable only through the HTTP client `AGIApiClient` in
`src/webui/frontend/src/services/api.ts`, whose request/response interfaces
(`MemoryRequest`, `MemoryResponse`, `ReasoningRequest`, `ReasoningResponse`,
`LearningRequest`, `LearningStats`, `EvolutionStatus`) fix the data shapes.
Definitions whose doc comment starts with `Modelled from the spec:` embed
behaviour of the server-side core that is not present in the source tree,
following the specification's words; the remaining definitions (the client's
token state) are embedded directly from `api.ts`.

Scores, importances and confidences are modelled as rationals (`ℚ`), which
makes every bound decidable and every operation executable.
-/

namespace AtulyaTantra

attribute [local semireducible] Rat.mul Rat.inv Rat.add Rat.sub

/-- Memory kind, from the closed enumeration in `MemoryRequest.type`
(`api.ts` line 62): `'episodic' | 'semantic' | 'procedural'`. -/
inductive MemoryKind where
  | episodic
  | semantic
  | procedural
deriving DecidableEq, Repr

/-- Modelled from the spec: `MemoryEntry` (§3) — identifier, content, kind,
importance in [0,1], tags, created-at timestamp, access-count.  The store
implementation is absent from the source; the field shape follows the
client-side `MemoryResponse` interface (`api.ts` lines 67-75). -/
structure MemoryEntry where
  id : Nat
  content : String
  kind : MemoryKind
  importance : ℚ
  tags : List String
  created_at : Nat
  accessed_count : Nat
deriving DecidableEq, Repr

/-- Modelled from the spec: the MemoryStore (§4.1) holds typed entries keyed
by identifier; `nextId` supplies fresh never-reused identifiers. -/
structure MemoryStore where
  entries : List MemoryEntry
  nextId : Nat
deriving DecidableEq, Repr

/-- Clamp a rational into the closed interval [0,1]. -/
def clamp01 (x : ℚ) : ℚ := max 0 (min 1 x)

/-- Modelled from the spec: `store(content, kind, importance, tags)` (§4.1),
with the recommended policy (clamp importance, never reject).  Returns the
created entry (access-count 0, fresh identifier) and the grown store. -/
def MemoryStore.store (st : MemoryStore) (content : String) (kind : MemoryKind)
    (importance : ℚ) (tags : List String) (now : Nat) :
    MemoryEntry × MemoryStore :=
  let e : MemoryEntry :=
    { id := st.nextId, content := content, kind := kind,
      importance := clamp01 importance, tags := tags,
      created_at := now, accessed_count := 0 }
  (e, { entries := st.entries ++ [e], nextId := st.nextId + 1 })

/-- Split a character list into whitespace-separated words; `acc` holds the
(reversed) characters of the word currently being read. -/
def splitWords : List Char → List Char → List String
  | [], acc => if acc.isEmpty then [] else [String.mk acc.reverse]
  | c :: cs, acc =>
      if c = ' ' then
        if acc.isEmpty then splitWords cs []
        else String.mk acc.reverse :: splitWords cs []
      else splitWords cs (c :: acc)

/-- Tokenize a text into its whitespace-separated words. -/
def tokenize (s : String) : List String := splitWords s.data []

/-- Modelled from the spec: lexical/token overlap between query and content
(§4.2) — the number of query tokens that occur among the content's tokens. -/
def overlap (query content : String) : Nat :=
  ((tokenize query).filter (fun t => (tokenize content).contains t)).length

/-- Modelled from the spec: the combined relevance score (§4.2) — lexical
overlap multiplied with the stored importance. -/
def score (query : String) (e : MemoryEntry) : ℚ :=
  (overlap query e.content : ℚ) * e.importance

/-- Modelled from the spec: the minimum relevance floor (§3, §4.2); entries
whose combined score is not above it are never returned. -/
def relevanceFloor : ℚ := 0

/-- Ranking key (§4.2): descending combined score, then descending importance,
then more recent creation time first, then ascending identifier — encoded as
an ascending lexicographic key by negating the descending components. -/
def rankKey (query : String) (e : MemoryEntry) : Lex (ℚ × Lex (ℚ × Lex (ℤ × ℕ))) :=
  toLex (-(score query e), toLex (-e.importance, toLex (-(e.created_at : ℤ), e.id)))

/-- The ranking order (§4.2): `e₁` ranks no lower than `e₂`. -/
def rankLE (query : String) (e₁ e₂ : MemoryEntry) : Prop :=
  rankKey query e₁ ≤ rankKey query e₂

instance (query : String) : DecidableRel (rankLE query) :=
  fun e₁ e₂ => inferInstanceAs (Decidable (rankKey query e₁ ≤ rankKey query e₂))

instance (query : String) : IsTotal MemoryEntry (rankLE query) :=
  ⟨fun e₁ e₂ => le_total (rankKey query e₁) (rankKey query e₂)⟩

instance (query : String) : IsTrans MemoryEntry (rankLE query) :=
  ⟨fun _ _ _ h₁ h₂ => le_trans h₁ h₂⟩

/-- Modelled from the spec: the RetrievalRanker (§4.2) — exclude entries at or
below the relevance floor, then sort by the ranking order. -/
def rankList (query : String) (st : MemoryStore) : List MemoryEntry :=
  List.insertionSort (rankLE query)
    (st.entries.filter (fun e => decide (relevanceFloor < score query e)))

/-- Increment an entry's access count, leaving every other field unchanged. -/
def bumpAccess (e : MemoryEntry) : MemoryEntry :=
  { e with accessed_count := e.accessed_count + 1 }

/-- Modelled from the spec: `retrieve(query, limit)` (§4.1, §4.2) — rank, then
truncate to `limit`; as a side effect increment the access-count of every
entry included in the returned sequence, leaving all other entries (and all
other fields) unchanged. -/
def MemoryStore.retrieve (st : MemoryStore) (query : String) (limit : Nat) :
    List MemoryEntry × MemoryStore :=
  let res := (rankList query st).take limit
  let ids := res.map (·.id)
  (res,
    { st with
        entries := st.entries.map (fun e => if ids.contains e.id then bumpAccess e else e) })

/-- Reasoning mode, from the closed enumeration in
`ReasoningRequest.reasoning_type` (`api.ts` line 87):
`'deductive' | 'inductive' | 'abductive'`. -/
inductive ReasoningMode where
  | deductive
  | inductive'
  | abductive
deriving DecidableEq, Repr

/-- `ReasoningResponse` (`api.ts` lines 90-95): conclusion, reasoning chain,
confidence, evidence list. -/
structure ReasoningResponse where
  conclusion : String
  reasoning_chain : List String
  confidence : ℚ
  evidence : List String
deriving DecidableEq, Repr

/-- Modelled from the spec: the error taxonomy of the ReasoningEngine (§7)
relevant here. -/
inductive ReasoningError where
  | insufficientEvidence
deriving DecidableEq, Repr

/-- Modelled from the spec: the fixed confidence ceiling of abductive
reasoning (§4.3), "e.g. 0.85". -/
def abductiveCeiling : ℚ := 85 / 100

/-- Modelled from the spec: confidence as a function of evidence count (§4.3)
— an increasing function of the number of evidence items (retrieved memories
plus supplied context) with values in [0,1]. -/
def rawConfidence (memories : List MemoryEntry) (context : Option String) : ℚ :=
  let n : Nat := memories.length + (if context.isSome then 1 else 0)
  (n : ℚ) / ((n : ℚ) + 1)

/-- Modelled from the spec: mode-dependent confidence adjustment (§4.3) —
abductive confidence is capped at the fixed ceiling, deductive and inductive
confidences are not capped. -/
def modeConfidence (mode : ReasoningMode) (raw : ℚ) : ℚ :=
  match mode with
  | .abductive => min raw abductiveCeiling
  | _ => raw

/-- Modelled from the spec: the mode-dependent framing statement that seeds
the reasoning chain (§4.3). -/
def frameStatement (mode : ReasoningMode) (query : String) : String :=
  match mode with
  | .deductive => "deduce: " ++ query
  | .inductive' => "induce: " ++ query
  | .abductive => "hypothesize: " ++ query

/-- Modelled from the spec: the successful `ReasoningResponse` payload (§4.3)
— the chain is seeded from the retrieved memories' content and the supplied
context, the final synthesis is delegated to the external text-completion
oracle, the evidence cites the retrieved memory identifiers. -/
def analyzeResponse (oracle : List String → String) (query : String)
    (context : Option String) (mode : ReasoningMode)
    (memories : List MemoryEntry) : ReasoningResponse :=
  let chain := frameStatement mode query :: (memories.map (·.content) ++ context.toList)
  { conclusion := oracle chain,
    reasoning_chain := chain,
    confidence := modeConfidence mode (rawConfidence memories context),
    evidence := memories.map (fun e => toString e.id) }

/-- Modelled from the spec: `analyze(query, context, mode, retrieved
memories)` (§4.3) — fails with `InsufficientEvidenceError` when zero memories
are retrieved and no context is supplied, otherwise produces a
`ReasoningResponse`. -/
def analyze (oracle : List String → String) (query : String)
    (context : Option String) (mode : ReasoningMode)
    (memories : List MemoryEntry) : Except ReasoningError ReasoningResponse :=
  if memories.isEmpty && context.isNone then
    .error .insufficientEvidence
  else
    .ok (analyzeResponse oracle query context mode memories)

/-- `LearningRequest` (`api.ts` lines 97-102): experience, outcome, optional
feedback, optional importance weight. -/
structure LearningExperience where
  experience : String
  outcome : String
  feedback : Option String
  importance : Option ℚ
deriving DecidableEq, Repr

/-- Modelled from the spec: `LearningState` (§3), with the field shape of the
client-side `LearningStats` interface (`api.ts` lines 104-109). -/
structure LearningState where
  total_experiences : Nat
  learning_rate : ℚ
  adaptation_score : ℚ
  knowledge_growth : ℚ
deriving DecidableEq, Repr

/-- Modelled from the spec: the small fixed vocabulary of positive outcomes
(§4.4). -/
def positiveVocabulary : List String :=
  ["success", "positive", "good", "solved", "improved"]

/-- Modelled from the spec: the small fixed vocabulary of negative outcomes
(§4.4). -/
def negativeVocabulary : List String :=
  ["failure", "negative", "bad", "error", "regressed"]

/-- Modelled from the spec: outcome polarity (§4.4), inferred from the fixed
vocabulary over the outcome text or the explicit feedback field: +1 positive,
-1 negative, 0 neutral. -/
def polarity (outcome : String) (feedback : Option String) : ℚ :=
  let texts := outcome :: feedback.toList
  if texts.any (fun t => (tokenize t).any (positiveVocabulary.contains ·)) then 1
  else if texts.any (fun t => (tokenize t).any (negativeVocabulary.contains ·)) then -1
  else 0

/-- Modelled from the spec: the mid-range default importance weight of a
learning experience (§3). -/
def defaultWeight : ℚ := 1 / 2

/-- Modelled from the spec: the update signal (§4.4) — derived from outcome
polarity scaled by the experience's importance weight, placed on the 0-100
adaptation scale (neutral sits at the midpoint 50). -/
def signalOf (exp : LearningExperience) : ℚ :=
  50 + 50 * polarity exp.outcome exp.feedback * exp.importance.getD defaultWeight

/-- Modelled from the spec: `record(experience)` (§4.4) — the
total-experience count increments unconditionally by 1; the adaptation score
follows the exponential moving average
`adaptation = adaptation*(1-α) + signal*α` with `α` the learning rate;
knowledge-growth accumulates the adaptation delta since the last snapshot. -/
def record (exp : LearningExperience) (st : LearningState) : LearningState :=
  let adaptation := st.adaptation_score * (1 - st.learning_rate) +
    signalOf exp * st.learning_rate
  { total_experiences := st.total_experiences + 1,
    learning_rate := st.learning_rate,
    adaptation_score := adaptation,
    knowledge_growth := st.knowledge_growth + (adaptation - st.adaptation_score) }

/-- Modelled from the spec: the LearningTracker's initial state (a fresh
tracker with no experiences; the adaptation score starts at the midpoint of
its 0-100 range). -/
def initialLearningState : LearningState :=
  { total_experiences := 0, learning_rate := 1 / 10,
    adaptation_score := 50, knowledge_growth := 0 }

/-- Modelled from the spec: the EvolutionScheduler's two-state machine (§4.5):
Idle and Running. -/
inductive SchedulerPhase where
  | idle
  | running
deriving DecidableEq, Repr

/-- Modelled from the spec: `EvolutionState` (§3), with the field shape of
the client-side `EvolutionStatus` interface (`api.ts` lines 111-117). -/
structure EvolutionState where
  generation : Nat
  fitness_score : ℚ
  mutations : Nat
  improvements : List String
  last_evolution : Nat
deriving DecidableEq, Repr

/-- The observable result of a trigger call (§6): accepted or
already-running. -/
inductive TriggerOutcome where
  | accepted
  | alreadyRunning
deriving DecidableEq, Repr

/-- Modelled from the spec: the EvolutionScheduler (§4.5) — its phase, its
evolution state, and the LearningTracker/MemoryStore aggregates it saw at the
previous completed cycle (used to detect improvements). -/
structure EvolutionScheduler where
  phase : SchedulerPhase
  evo : EvolutionState
  prevAdaptation : ℚ
  prevTotalMemories : Nat
deriving DecidableEq, Repr

/-- Modelled from the spec: the fitness score (§4.5), derived
deterministically from the LearningState and MemoryStore aggregates of the
cycle's snapshot (exact formula unspecified by the spec; chosen as a sum of a
normalized adaptation term and a saturating store-size term). -/
def fitnessOf (ls : LearningState) (totalMemories : Nat) : ℚ :=
  ls.adaptation_score / 100 + (totalMemories : ℚ) / ((totalMemories : ℚ) + 1)

/-- Modelled from the spec: the number of improvements a cycle detects (§4.5)
— one for a positive delta in adaptation score since the last cycle, one for
memory-store growth. -/
def improvementsDetected (s : EvolutionScheduler) (ls : LearningState)
    (totalMemories : Nat) : Nat :=
  (if s.prevAdaptation < ls.adaptation_score then 1 else 0) +
    (if s.prevTotalMemories < totalMemories then 1 else 0)

/-- Modelled from the spec: `trigger()` (§4.5) — while Running it fails with
`AlreadyRunningError` and changes nothing; from Idle the cycle completes
(back to Idle): the generation increments by exactly 1, the fitness score is
recomputed from the snapshot, the mutation count grows by the improvements
detected, and an improvement entry is appended only when one was detected. -/
def EvolutionScheduler.trigger (s : EvolutionScheduler) (ls : LearningState)
    (totalMemories : Nat) (now : Nat) : TriggerOutcome × EvolutionScheduler :=
  match s.phase with
  | .running => (.alreadyRunning, s)
  | .idle =>
      let detected := improvementsDetected s ls totalMemories
      let evo :=
        { generation := s.evo.generation + 1,
          fitness_score := fitnessOf ls totalMemories,
          mutations := s.evo.mutations + detected,
          improvements := s.evo.improvements ++
            (if detected = 0 then []
             else ["observed positive delta at generation " ++ toString (s.evo.generation + 1)]),
          last_evolution := now }
      (.accepted,
        { phase := .idle, evo := evo, prevAdaptation := ls.adaptation_score,
          prevTotalMemories := totalMemories })

/-- The browser's localStorage, modelled as an association list from keys to
stored strings (used by the client through `localStorage.setItem`,
`localStorage.removeItem` and `localStorage.getItem` in `api.ts`). -/
structure BrowserStorage where
  items : List (String × String)
deriving DecidableEq, Repr

/-- `localStorage.setItem(key, value)`: the key now maps to `value`. -/
def BrowserStorage.setItem (s : BrowserStorage) (key value : String) :
    BrowserStorage :=
  { items := (key, value) :: s.items.filter (fun kv => kv.1 != key) }

/-- `localStorage.removeItem(key)`: the key maps to nothing. -/
def BrowserStorage.removeItem (s : BrowserStorage) (key : String) :
    BrowserStorage :=
  { items := s.items.filter (fun kv => kv.1 != key) }

/-- `localStorage.getItem(key)`. -/
def BrowserStorage.getItem (s : BrowserStorage) (key : String) : Option String :=
  (s.items.find? (fun kv => kv.1 == key)).map (·.2)

/-- The token-holding state of `AGIApiClient` (`api.ts` lines 132-193): the
private `token` field together with the browser storage it persists to. -/
structure AGIApiClient where
  token : Option String
  storage : BrowserStorage
deriving DecidableEq, Repr

/-- `setToken` (`api.ts` lines 181-184): stores the token in the private
field and persists it under the `agi_token` key. -/
def AGIApiClient.setToken (c : AGIApiClient) (t : String) : AGIApiClient :=
  { token := some t, storage := c.storage.setItem "agi_token" t }

/-- `clearToken` (`api.ts` lines 186-189): nulls the private field and
removes the persisted copy. -/
def AGIApiClient.clearToken (c : AGIApiClient) : AGIApiClient :=
  { token := none, storage := c.storage.removeItem "agi_token" }

/-- `getToken` (`api.ts` lines 191-193): returns the private field. -/
def AGIApiClient.getToken (c : AGIApiClient) : Option String := c.token

/-- The empty memory store. -/
def emptyStore : MemoryStore := { entries := [], nextId := 0 }

/-- The store of the spec's ranking scenario (§8): three entries sharing the
query term, with importances 0.9, 0.5 and 0.1. -/
def scenarioStore : MemoryStore :=
  (((emptyStore.store "term alpha" .episodic (9 / 10) ["term"] 0).2.store
      "term beta" .semantic (5 / 10) ["term"] 0).2.store
      "term gamma" .procedural (1 / 10) ["term"] 0).2

deriving instance DecidableEq for Except

/-- A sample memory entry used to instantiate hypotheses at a concrete
input. -/
def sampleEntry : MemoryEntry :=
  { id := 0, content := "fact", kind := .semantic, importance := 1 / 2,
    tags := [], created_at := 0, accessed_count := 0 }

/-- A sample oracle used to instantiate hypotheses at a concrete input. -/
def sampleOracle : List String → String := fun _ => "done"

/-- A sample reasoning response: what `analyze` produces from `sampleOracle`,
query `"why"`, no context, abductive mode and the single retrieved memory
`sampleEntry`. -/
def sampleResponse : ReasoningResponse :=
  { conclusion := "done", reasoning_chain := ["hypothesize: why", "fact"],
    confidence := 1 / 2, evidence := ["0"] }

/-- A sample idle scheduler used to instantiate hypotheses at a concrete
input. -/
def idleScheduler : EvolutionScheduler :=
  { phase := .idle,
    evo := { generation := 3, fitness_score := 0, mutations := 0,
             improvements := [], last_evolution := 0 },
    prevAdaptation := 50, prevTotalMemories := 0 }

/-- The same scheduler mid-cycle (Running). -/
def runningScheduler : EvolutionScheduler :=
  { idleScheduler with phase := .running }

/-! ### Helper lemmas -/

theorem clamp01_nonneg (x : ℚ) : 0 ≤ clamp01 x := le_max_left 0 _

theorem clamp01_le_one (x : ℚ) : clamp01 x ≤ 1 :=
  max_le (by norm_num) (min_le_left 1 x)

theorem take_subset_take {α : Type} (l : List α) {m n : Nat} (h : m ≤ n) :
    l.take m ⊆ l.take n := by
  intro a ha
  have hmem : a ∈ (l.take n).take m := by
    rwa [List.take_take, Nat.min_eq_left h]
  exact List.take_subset m (l.take n) hmem

theorem rankLE_iff (q : String) (e₁ e₂ : MemoryEntry) :
    rankLE q e₁ e₂ ↔
      score q e₂ < score q e₁ ∨
        (score q e₁ = score q e₂ ∧
          (e₂.importance < e₁.importance ∨
            (e₁.importance = e₂.importance ∧
              (e₂.created_at < e₁.created_at ∨
                (e₁.created_at = e₂.created_at ∧ e₁.id ≤ e₂.id))))) := by
  simp [rankLE, rankKey, Prod.Lex.le_iff, neg_lt_neg_iff, neg_inj,
    Nat.cast_lt, Nat.cast_inj]

theorem rawConfidence_nonneg (memories : List MemoryEntry)
    (context : Option String) : 0 ≤ rawConfidence memories context := by
  unfold rawConfidence
  positivity

theorem rawConfidence_le_one (memories : List MemoryEntry)
    (context : Option String) : rawConfidence memories context ≤ 1 := by
  unfold rawConfidence
  rw [div_le_one (by positivity)]
  linarith

theorem record_foldl_total (exps : List LearningExperience) :
    ∀ s : LearningState,
      (exps.foldl (fun s e => record e s) s).total_experiences =
        s.total_experiences + exps.length := by
  induction exps with
  | nil => intro s; simp
  | cons e tl ih =>
      intro s
      rw [List.foldl_cons, ih]
      simp only [record, List.length_cons]
      omega

/-! ### Claim theorems -/

/-- Claim C1: for every query, limit and fixed store snapshot,
`retrieve(q, n)` returns at most `n` entries, and for every `k > 0` the
entries it returns form a subset of those returned by `retrieve(q, n+k)` —
truncation happens only after ranking and is monotonic. -/
theorem retrieve_limit_monotone (st : MemoryStore) (q : String) (n k : Nat)
    (h : 0 < k) :
    (st.retrieve q n).1.length ≤ n ∧
      (st.retrieve q n).1 ⊆ (st.retrieve q (n + k)).1 := by
  constructor
  · exact List.length_take_le n (rankList q st)
  · exact take_subset_take (rankList q st) (Nat.le_add_right n k)

/-- Witness for C1 at a concrete input: the scenario store, limit 1,
extension 1. -/
theorem retrieve_limit_monotone_witness :
    (scenarioStore.retrieve "term" 1).1.length ≤ 1 ∧
      (scenarioStore.retrieve "term" 1).1 ⊆ (scenarioStore.retrieve "term" 2).1 :=
  retrieve_limit_monotone scenarioStore "term" 1 1 (by decide)

/-- Claim C2: for every `store(content, kind, importance, tags)` call, the
importance of the returned entry lies in the closed interval [0,1], because
importance is clamped to [0,1] at write time. -/
theorem store_importance_in_unit_interval (st : MemoryStore) (content : String)
    (kind : MemoryKind) (importance : ℚ) (tags : List String) (now : Nat) :
    0 ≤ (st.store content kind importance tags now).1.importance ∧
      (st.store content kind importance tags now).1.importance ≤ 1 := by
  have h : (st.store content kind importance tags now).1.importance =
      clamp01 importance := rfl
  rw [h]
  exact ⟨clamp01_nonneg importance, clamp01_le_one importance⟩

/-- Claim C3: `analyze` with zero retrieved memories and no supplied context
fails with `InsufficientEvidenceError` and returns no response; with at least
one retrieved memory or supplied context it succeeds (so it never raises this
error then). -/
theorem analyze_requires_evidence (oracle : List String → String) (q : String)
    (ctx : Option String) (mode : ReasoningMode) (mems : List MemoryEntry) :
    (mems = [] ∧ ctx = none →
        analyze oracle q ctx mode mems = .error .insufficientEvidence) ∧
      (mems ≠ [] ∨ ctx ≠ none →
        ∃ r, analyze oracle q ctx mode mems = .ok r) := by
  constructor
  · rintro ⟨rfl, rfl⟩
    rfl
  · intro h
    refine ⟨analyzeResponse oracle q ctx mode mems, ?_⟩
    have hg : (mems.isEmpty && ctx.isNone) = false := by
      rcases h with h | h
      · cases mems with
        | nil => exact absurd rfl h
        | cons e tl => simp
      · cases ctx with
        | none => exact absurd rfl h
        | some c => simp
    simp [analyze, hg]

/-- Witness for C3 at concrete inputs: with no memories and no context the
call fails with `InsufficientEvidenceError`; with one memory it succeeds. -/
theorem analyze_requires_evidence_witness :
    analyze sampleOracle "why" none .deductive [] = .error .insufficientEvidence ∧
      ∃ r, analyze sampleOracle "why" none .deductive [sampleEntry] = .ok r :=
  ⟨(analyze_requires_evidence sampleOracle "why" none .deductive []).1 ⟨rfl, rfl⟩,
    (analyze_requires_evidence sampleOracle "why" none .deductive [sampleEntry]).2
      (Or.inl (by simp))⟩

/-- Claim C4: every successful `analyze` call with at least one retrieved
memory has confidence in [0,1]; in abductive mode the confidence is
additionally capped at the fixed ceiling 0.85, while in deductive and
inductive modes no cap is applied (the confidence equals the uncapped
evidence-derived value). -/
theorem analyze_confidence_bounds (oracle : List String → String) (q : String)
    (ctx : Option String) (mode : ReasoningMode) (mems : List MemoryEntry)
    (r : ReasoningResponse) (h : analyze oracle q ctx mode mems = .ok r)
    (hne : mems ≠ []) :
    0 ≤ r.confidence ∧ r.confidence ≤ 1 ∧
      (mode = .abductive → r.confidence ≤ abductiveCeiling) ∧
      (mode ≠ .abductive → r.confidence = rawConfidence mems ctx) := by
  have hg : (mems.isEmpty && ctx.isNone) = false := by
    cases mems with
    | nil => exact absurd rfl hne
    | cons e tl => simp
  rw [analyze, hg] at h
  simp only [Bool.false_eq_true, if_false, Except.ok.injEq] at h
  subst h
  have hconf : (analyzeResponse oracle q ctx mode mems).confidence =
      modeConfidence mode (rawConfidence mems ctx) := rfl
  rw [hconf]
  have h0 := rawConfidence_nonneg mems ctx
  have h1 := rawConfidence_le_one mems ctx
  cases mode with
  | deductive =>
      exact ⟨h0, h1, fun hc => absurd hc (by decide), fun _ => rfl⟩
  | inductive' =>
      exact ⟨h0, h1, fun hc => absurd hc (by decide), fun _ => rfl⟩
  | abductive =>
      refine ⟨le_min h0 (by norm_num [abductiveCeiling]),
        (min_le_left _ _).trans h1,
        fun _ => min_le_right _ _,
        fun hc => absurd rfl hc⟩

/-- Witness for C4 at a concrete input: `sampleOracle`, query `"why"`, no
context, abductive mode, the single retrieved memory `sampleEntry`, and the
resulting response `sampleResponse`. -/
theorem analyze_confidence_bounds_witness :
    0 ≤ sampleResponse.confidence ∧ sampleResponse.confidence ≤ 1 ∧
      (ReasoningMode.abductive = ReasoningMode.abductive →
        sampleResponse.confidence ≤ abductiveCeiling) ∧
      (ReasoningMode.abductive ≠ ReasoningMode.abductive →
        sampleResponse.confidence = rawConfidence [sampleEntry] none) :=
  analyze_confidence_bounds sampleOracle "why" none .abductive [sampleEntry]
    sampleResponse (by decide) (by decide)

/-- Claim C5: the generation counter increases by exactly 1 on every
completed `trigger()` cycle (so it never decreases or skips), and a
`trigger()` call made while Running fails with `AlreadyRunningError` and
leaves the whole scheduler state — generation included — unchanged. -/
theorem trigger_generation (s : EvolutionScheduler) (ls : LearningState)
    (tm now : Nat) :
    (s.phase = .idle →
        (s.trigger ls tm now).2.evo.generation = s.evo.generation + 1) ∧
      (s.phase = .running → s.trigger ls tm now = (.alreadyRunning, s)) := by
  obtain ⟨phase, evo, pa, pm⟩ := s
  cases phase
  · refine ⟨fun _ => rfl, fun hc => ?_⟩
    simp at hc
  · refine ⟨fun hc => ?_, fun _ => rfl⟩
    simp at hc

/-- Witness for C5 at concrete inputs: an idle scheduler at generation 3
advances to generation 4; a running scheduler is returned unchanged with the
already-running outcome. -/
theorem trigger_generation_witness :
    (idleScheduler.trigger initialLearningState 0 7).2.evo.generation =
        idleScheduler.evo.generation + 1 ∧
      runningScheduler.trigger initialLearningState 0 7 =
        (.alreadyRunning, runningScheduler) :=
  ⟨(trigger_generation idleScheduler initialLearningState 0 7).1 rfl,
    (trigger_generation runningScheduler initialLearningState 0 7).2 rfl⟩

/-- Claim C6: every trigger call's outcome lets the caller distinguish the
accepted case from the already-running case — the outcome is `accepted`
exactly when the scheduler was Idle and `alreadyRunning` exactly when it was
Running. -/
theorem trigger_outcome_distinguishes (s : EvolutionScheduler)
    (ls : LearningState) (tm now : Nat) :
    ((s.trigger ls tm now).1 = .accepted ↔ s.phase = .idle) ∧
      ((s.trigger ls tm now).1 = .alreadyRunning ↔ s.phase = .running) := by
  obtain ⟨phase, evo, pa, pm⟩ := s
  cases phase <;> simp [EvolutionScheduler.trigger]

/-- Witness for C6 at concrete inputs: the idle scheduler's trigger is
accepted, the running scheduler's reports already-running. -/
theorem trigger_outcome_distinguishes_witness :
    (idleScheduler.trigger initialLearningState 0 7).1 = .accepted ∧
      (runningScheduler.trigger initialLearningState 0 7).1 = .alreadyRunning :=
  ⟨((trigger_outcome_distinguishes idleScheduler initialLearningState 0 7).1).mpr rfl,
    ((trigger_outcome_distinguishes runningScheduler initialLearningState 0 7).2).mpr rfl⟩

/-- Claim C7: every `record(experience)` call increments the total-experience
count by exactly 1, unconditionally — for any outcome polarity — so after `n`
record calls from the initial state the count equals `n`. -/
theorem record_increments_total :
    (∀ (exp : LearningExperience) (st : LearningState),
        (record exp st).total_experiences = st.total_experiences + 1) ∧
      ∀ exps : List LearningExperience,
        (exps.foldl (fun s e => record e s) initialLearningState).total_experiences =
          exps.length := by
  refine ⟨fun exp st => rfl, fun exps => ?_⟩
  rw [record_foldl_total]
  simp [initialLearningState]

/-- Claim C8: the ranking output is totally ordered — descending combined
score, exact-score ties broken by higher importance, then by more recent
creation time, then by identifier — and, in the spec's scenario, three stored
entries of importances 0.9/0.5/0.1 sharing the query term give
`retrieve("term", 2)` = the two highest-scoring entries with the
0.9-importance entry first on the lexical-overlap tie. -/
theorem ranking_order_deterministic :
    (∀ (q : String) (st : MemoryStore),
        (rankList q st).Sorted (fun e₁ e₂ =>
          score q e₂ < score q e₁ ∨
            (score q e₁ = score q e₂ ∧
              (e₂.importance < e₁.importance ∨
                (e₁.importance = e₂.importance ∧
                  (e₂.created_at < e₁.created_at ∨
                    (e₁.created_at = e₂.created_at ∧ e₁.id ≤ e₂.id))))))) ∧
      (scenarioStore.retrieve "term" 2).1.map (fun e => (e.content, e.importance)) =
        [("term alpha", 9 / 10), ("term beta", 5 / 10)] := by
  constructor
  · intro q st
    exact List.Pairwise.imp (fun h => (rankLE_iff q _ _).mp h)
      (List.sorted_insertionSort (rankLE q) _)
  · decide

/-- Claim C9: a completed retrieve call increments the access-count by
exactly 1 on every entry included in its returned sequence, and leaves every
entry not in the result set — and every other field of every entry —
unchanged. -/
theorem retrieve_access_frame (q : String) (n : Nat) (st : MemoryStore) :
    (st.retrieve q n).2.entries.length = st.entries.length ∧
      ∀ (i : Nat) (h : i < st.entries.length)
        (h' : i < (st.retrieve q n).2.entries.length),
        ((st.entries.get ⟨i, h⟩).id ∈ (st.retrieve q n).1.map (fun e => e.id) →
            (st.retrieve q n).2.entries.get ⟨i, h'⟩ =
              { st.entries.get ⟨i, h⟩ with
                  accessed_count := (st.entries.get ⟨i, h⟩).accessed_count + 1 }) ∧
          ((st.entries.get ⟨i, h⟩).id ∉ (st.retrieve q n).1.map (fun e => e.id) →
            (st.retrieve q n).2.entries.get ⟨i, h'⟩ = st.entries.get ⟨i, h⟩) := by
  refine ⟨by simp [MemoryStore.retrieve], ?_⟩
  intro i h h'
  have hget : (st.retrieve q n).2.entries.get ⟨i, h'⟩ =
      (if (((rankList q st).take n).map (fun e => e.id)).contains
            (st.entries.get ⟨i, h⟩).id then
          bumpAccess (st.entries.get ⟨i, h⟩)
        else st.entries.get ⟨i, h⟩) :=
    List.get_map _
  rw [hget]
  constructor
  · intro hmem
    have hc : ((((rankList q st).take n).map (fun e => e.id)).contains
        (st.entries.get ⟨i, h⟩).id) = true :=
      List.elem_iff.mpr hmem
    rw [if_pos hc]
    rfl
  · intro hnmem
    have hc : ¬ (((((rankList q st).take n).map (fun e => e.id)).contains
        (st.entries.get ⟨i, h⟩).id) = true) :=
      fun hcontra => hnmem (List.elem_iff.mp hcontra)
    rw [if_neg hc]

/-- Witness for C9 at a concrete input: in the scenario store, retrieving two
entries bumps the access count of the first stored entry (which is in the
result) and leaves the third (which is not) untouched. -/
theorem retrieve_access_frame_witness :
    (scenarioStore.retrieve "term" 2).2.entries.length =
        scenarioStore.entries.length ∧
      (scenarioStore.retrieve "term" 2).2.entries.get ⟨0, by decide⟩ =
        { scenarioStore.entries.get ⟨0, by decide⟩ with
            accessed_count :=
              (scenarioStore.entries.get ⟨0, by decide⟩).accessed_count + 1 } ∧
      (scenarioStore.retrieve "term" 2).2.entries.get ⟨2, by decide⟩ =
        scenarioStore.entries.get ⟨2, by decide⟩ :=
  ⟨(retrieve_access_frame "term" 2 scenarioStore).1,
    ((retrieve_access_frame "term" 2 scenarioStore).2 0 (by decide) (by decide)).1
      (by decide),
    ((retrieve_access_frame "term" 2 scenarioStore).2 2 (by decide) (by decide)).2
      (by decide)⟩

/-- Claim C10: for the client's token state, `getToken` returns exactly what
`setToken` stored, and returns null (here `none`) immediately after
`clearToken` — the getter/setter round-trip of the stored auth token. -/
theorem token_roundtrip (c : AGIApiClient) (t : String) :
    (c.setToken t).getToken = some t ∧ c.clearToken.getToken = none :=
  ⟨rfl, rfl⟩

end AtulyaTantra
